import Mathlib

/-!
Verification of the scoring engine of the NDI compliance-assessment backend.

The definitions below are a shallow embedding of the Python source:

* app/services/score_service.py   (class ScoreService)
* app/services/assessment_service.py  (score_to_level, generate_report)
* app/models/ndi.py, app/models/assessment.py, app/models/evidence.py
  (the data model read by the engine)

Scores are modelled as rationals; Python float literals such as 0.25 become
the corresponding rational constants.  Python round() (round half to even)
is modelled by pyRound / roundTo.  Fallible Python code (attribute access
that can raise) is modelled in the Except monad.
-/

/-- Floor of a rational: the denominator is positive, so flooring is
floor-division of numerator by denominator. -/
def ratFloor (x : ℚ) : ℤ := Int.fdiv x.num x.den

/-- Python round() on a rational: round half to even (banker's rounding). -/
def pyRound (x : ℚ) : ℤ :=
  let n : ℤ := ratFloor x
  let frac : ℚ := x - (n : ℚ)
  if frac < 1/2 then n
  else if 1/2 < frac then n + 1
  else if n % 2 = 0 then n else n + 1

/-- Python round(x, d): round to d decimal places. -/
def roundTo (d : ℕ) (x : ℚ) : ℚ := (pyRound (x * 10 ^ d) : ℚ) / 10 ^ d

/-- The fixed 6-entry level-name table ScoreService.LEVEL_NAMES
(score_service.py lines 31-38), with the fallback used by LEVEL_NAMES.get. -/
def LEVEL_NAMES (level : ℕ) : String × String :=
  match level with
  | 0 => ("Absence of Capabilities", "غياب القدرات")
  | 1 => ("Establishing", "التأسيس")
  | 2 => ("Defined", "التحديد")
  | 3 => ("Activated", "التفعيل")
  | 4 => ("Managed", "الإدارة")
  | 5 => ("Pioneer", "الريادة")
  | _ => ("Unknown", "غير معروف")

/-- Embedding of ScoreService._get_level_name (score_service.py lines 59-62). -/
def get_level_name (level : ℕ) (language : String) : String :=
  if language = "en" then (LEVEL_NAMES level).1 else (LEVEL_NAMES level).2

/-- Embedding of ScoreService.LEVEL_THRESHOLDS (score_service.py lines 40-47). -/
def LEVEL_THRESHOLDS : List (ℚ × ℕ) :=
  [(0.25, 0), (1.25, 1), (2.50, 2), (4.00, 3), (4.75, 4), (5.01, 5)]

/-- The for-loop of ScoreService._get_level_from_score: return the level of
the first threshold the score is below; 5 if the loop falls through. -/
def level_lookup (score : ℚ) : List (ℚ × ℕ) → ℕ
  | [] => 5
  | (threshold, level) :: rest =>
      if score < threshold then level else level_lookup score rest

/-- Embedding of ScoreService._get_level_from_score (score_service.py lines 52-57). -/
def get_level_from_score (score : ℚ) : ℕ :=
  level_lookup score LEVEL_THRESHOLDS

/-- Embedding of score_to_level (assessment_service.py lines 36-49): the
older assessment-service variant of the score-to-level bucket function. -/
def score_to_level (score : ℚ) : ℕ :=
  if score < 0.25 then 0
  else if score < 1.25 then 1
  else if score < 2.5 then 2
  else if score < 4.0 then 3
  else if score < 4.75 then 4
  else 5

/-!
Data model (app/models).  UUID primary and foreign keys are modelled as
natural numbers, timestamps as integers.  Relationship attributes
(selectinload in the services) are modelled by lookup functions over a Db
record holding the tables.
-/

/-- The NDIDomain model (app/models/ndi.py lines 16-41), columns read by the
scoring engine. -/
structure NDIDomain where
  id : ℕ
  code : String
  name_en : String
  name_ar : String
  is_oe_domain : Bool
  sort_order : ℤ
deriving DecidableEq, Repr

/-- The NDIQuestion model (app/models/ndi.py lines 44-76). -/
structure NDIQuestion where
  id : ℕ
  domain_id : ℕ
  code : String
  question_en : String
  question_ar : String
  sort_order : ℤ
deriving DecidableEq, Repr

/-- The NDIAcceptanceEvidence model (app/models/ndi.py lines 112-143): a
required-evidence item of a maturity level, with its per-level ordinal
evidence_id, optional specification_code and optional inherits_from_level. -/
structure NDIAcceptanceEvidence where
  id : ℕ
  maturity_level_id : ℕ
  evidence_id : ℕ
  text_en : String
  text_ar : String
  inherits_from_level : Option ℤ
  specification_code : Option String
  sort_order : ℤ
deriving DecidableEq, Repr

/-- The NDIMaturityLevel model (app/models/ndi.py lines 79-109), with its
acceptance_evidence relationship list. -/
structure NDIMaturityLevel where
  id : ℕ
  question_id : ℕ
  level : ℕ
  name_en : String
  name_ar : String
  acceptance_evidence : List NDIAcceptanceEvidence
deriving DecidableEq, Repr

/-- The Assessment model (app/models/assessment.py lines 35-79).  Its only
mapped score column is current_score; maturity_score and compliance_score
are NOT columns of the model — they are plain Python instance attributes
that ScoreService.update_assessment_scores assigns (score_service.py lines
297-298), so they are carried here as optional fields of the row object. -/
structure Assessment where
  id : ℕ
  organization_id : ℕ
  assessment_type : String
  status : String
  name : Option String
  description : Option String
  target_level : Option ℕ
  current_score : Option ℚ
  maturity_score : Option ℚ
  compliance_score : Option ℚ
  created_by : Option ℕ
  created_at : ℤ
  updated_at : ℤ
  completed_at : Option ℤ
deriving DecidableEq, Repr

/-- The AssessmentResponse model (app/models/assessment.py lines 82-118). -/
structure AssessmentResponse where
  id : ℕ
  assessment_id : ℕ
  question_id : ℕ
  selected_level : Option ℕ
  justification : Option String
  notes : Option String
deriving DecidableEq, Repr

/-- The Evidence model (app/models/evidence.py lines 16-50): an uploaded
file tied to one AssessmentResponse.  Note that the model declares NO
evidence_id column: an uploaded file carries no acceptance-evidence
ordinal. -/
structure Evidence where
  id : ℕ
  response_id : ℕ
  file_name : String
  file_path : String
  file_type : Option String
  file_size : Option ℕ
  analysis_status : Option String
deriving DecidableEq, Repr

/-- The database state: one list per table read or written by the engine. -/
structure Db where
  domains : List NDIDomain
  questions : List NDIQuestion
  maturity_levels : List NDIMaturityLevel
  assessments : List Assessment
  responses : List AssessmentResponse
  evidence : List Evidence
deriving DecidableEq, Repr

/-- The questions relationship of a domain (selectinload(NDIDomain.questions)). -/
def domainQuestions (db : Db) (d : NDIDomain) : List NDIQuestion :=
  db.questions.filter (fun q => q.domain_id == d.id)

/-- Stable insertion into a list ordered by sort_order. -/
def insertBySortOrder (d : NDIDomain) : List NDIDomain → List NDIDomain
  | [] => [d]
  | e :: rest =>
      if d.sort_order ≤ e.sort_order then d :: e :: rest
      else e :: insertBySortOrder d rest

/-- Stable sort by sort_order, modelling the SQL ORDER BY. -/
def sortBySortOrder : List NDIDomain → List NDIDomain
  | [] => []
  | d :: rest => insertBySortOrder d (sortBySortOrder rest)

/-- Embedding of ScoreService._get_domains (score_service.py lines 64-71):
all domains ordered by sort_order. -/
def get_domains (db : Db) : List NDIDomain := sortBySortOrder db.domains

/-- Embedding of ScoreService._get_responses (score_service.py lines
73-83): the responses of one assessment. -/
def get_responses (db : Db) (assessment_id : ℕ) : List AssessmentResponse :=
  db.responses.filter (fun r => r.assessment_id == assessment_id)

/-- The evidence relationship of a response
(selectinload(AssessmentResponse.evidence)). -/
def responseEvidence (db : Db) (r : AssessmentResponse) : List Evidence :=
  db.evidence.filter (fun e => e.response_id == r.id)

/-- The question relationship of a response
(selectinload(AssessmentResponse.question)). -/
def responseQuestion (db : Db) (r : AssessmentResponse) : Option NDIQuestion :=
  db.questions.find? (fun q => q.id == r.question_id)

/-- Embedding of ScoreService._get_maturity_level (score_service.py lines
85-97).  The pair (question_id, level) is unique (constraint
uq_question_level), so scalar_one_or_none is find?. -/
def get_maturity_level (db : Db) (question_id : ℕ) (level : ℕ) :
    Option NDIMaturityLevel :=
  db.maturity_levels.find? (fun ml => ml.question_id == question_id && ml.level == level)

/-- Embedding of ScoreService._get_total_questions (score_service.py lines
99-102): the question count, where Python `scalar() or 42` turns a zero
count into the fallback constant 42. -/
def get_total_questions (db : Db) : ℕ :=
  if db.questions.length = 0 then 42 else db.questions.length

/-- The total-questions computation of AssessmentService.generate_report
(assessment_service.py lines 194-196): the same `count or 42` pattern used
for the report's progress percentage denominator. -/
def generate_report_total_questions (db : Db) : ℕ :=
  if db.questions.length = 0 then 42 else db.questions.length

/-- The DomainScore result shape (app/schemas/score.py). -/
structure DomainScore where
  domain_code : String
  domain_name_en : String
  domain_name_ar : String
  score : ℚ
  level : ℕ
  level_name_en : String
  level_name_ar : String
  answered_count : ℕ
  total_questions : ℕ
  percentage : ℚ
deriving DecidableEq, Repr

/-- The MaturityScoreResult result shape (app/schemas/score.py). -/
structure MaturityScoreResult where
  overall_score : ℚ
  overall_level : ℕ
  overall_level_name_en : String
  overall_level_name_ar : String
  overall_percentage : ℚ
  domain_scores : List DomainScore
  answered_count : ℕ
  total_questions : ℕ
deriving DecidableEq, Repr

/-- One iteration of the per-domain loop of
ScoreService.calculate_maturity_score (score_service.py lines 118-144):
the DomainScore record pushed to domain_scores, and the unrounded domain
average pushed to all_scores when the domain has an answered response. -/
def maturity_domain_step (db : Db) (responses : List AssessmentResponse)
    (domain : NDIDomain) : DomainScore × Option ℚ :=
  let domain_question_ids := (domainQuestions db domain).map (fun q => q.id)
  let domain_responses := responses.filter (fun r =>
    domain_question_ids.contains r.question_id && r.selected_level.isSome)
  let avg_score : ℚ :=
    if domain_responses.isEmpty then 0
    else ((domain_responses.map (fun r => r.selected_level.getD 0)).sum : ℚ) /
      (domain_responses.length : ℚ)
  let level : ℕ := if domain_responses.isEmpty then 0 else get_level_from_score avg_score
  ({ domain_code := domain.code
     domain_name_en := domain.name_en
     domain_name_ar := domain.name_ar
     score := roundTo 2 avg_score
     level := level
     level_name_en := get_level_name level "en"
     level_name_ar := get_level_name level "ar"
     answered_count := domain_responses.length
     total_questions := (domainQuestions db domain).length
     percentage := if 0 < avg_score then roundTo 1 (avg_score / 5 * 100) else 0 },
   if domain_responses.isEmpty then none else some avg_score)

/-- The whole domain loop: accumulates domain_scores and all_scores in
iteration order. -/
def maturity_fold (db : Db) (responses : List AssessmentResponse) :
    List NDIDomain → List DomainScore × List ℚ
  | [] => ([], [])
  | domain :: rest =>
      let step := maturity_domain_step db responses domain
      let acc := maturity_fold db responses rest
      (step.1 :: acc.1,
       match step.2 with
       | some s => s :: acc.2
       | none => acc.2)

/-- Embedding of ScoreService.calculate_maturity_score (score_service.py
lines 104-164). -/
def calculate_maturity_score (db : Db) (assessment_id : ℕ) : MaturityScoreResult :=
  let responses := get_responses db assessment_id
  let domains := get_domains db
  let total_questions := get_total_questions db
  let acc := maturity_fold db responses domains
  let domain_scores := acc.1
  let all_scores := acc.2
  let overall_score : ℚ :=
    if all_scores.isEmpty then 0
    else all_scores.sum / (all_scores.length : ℚ)
  let overall_level := get_level_from_score overall_score
  { overall_score := roundTo 2 overall_score
    overall_level := overall_level
    overall_level_name_en := get_level_name overall_level "en"
    overall_level_name_ar := get_level_name overall_level "ar"
    overall_percentage := roundTo 1 (overall_score / 5 * 100)
    domain_scores := domain_scores
    answered_count := (domain_scores.map (fun ds => ds.answered_count)).sum
    total_questions := total_questions }

deriving instance DecidableEq for Except

/-- Exceptions raised by the embedded Python code. -/
inductive PyError where
  | attributeError (msg : String)
deriving DecidableEq, Repr

/-- Python attribute access ev.evidence_id on an uploaded Evidence record
(score_service.py lines 196 and 251).  The Evidence model
(app/models/evidence.py) declares no evidence_id column or attribute, so
the access raises AttributeError. -/
def Evidence.evidence_id (_ev : Evidence) : Except PyError ℕ :=
  .error (.attributeError "Evidence object has no attribute evidence_id")

/-- The list comprehension of score_service.py line 196:
[ev.evidence_id for ev in response.evidence if ev.evidence_id].
The filter keeps Python-truthy (nonzero) values; evaluating ev.evidence_id
raises, so the comprehension fails on any nonempty evidence list. -/
def uploaded_evidence_ids : List Evidence → Except PyError (List ℕ)
  | [] => .ok []
  | ev :: rest =>
      match ev.evidence_id with
      | .error e => .error e
      | .ok eid =>
          match uploaded_evidence_ids rest with
          | .error e => .error e
          | .ok ids => if eid ≠ 0 then .ok (eid :: ids) else .ok ids

/-- The SpecificationStatus result shape (app/schemas/score.py). -/
structure SpecificationStatus where
  specification_code : String
  question_code : String
  evidence_id : ℕ
  status : String
  has_evidence : Bool
deriving DecidableEq, Repr

/-- The ComplianceScoreResult result shape (app/schemas/score.py). -/
structure ComplianceScoreResult where
  compliant_count : ℕ
  partial_count : ℕ
  non_compliant_count : ℕ
  total_specifications : ℕ
  compliance_percentage : ℚ
  is_compliant : Bool
  specifications_detail : List SpecificationStatus
deriving DecidableEq, Repr

/-- The question code of a response: response.question.code if
response.question else "" (score_service.py line 207). -/
def response_question_code (db : Db) (response : AssessmentResponse) : String :=
  match responseQuestion db response with
  | some q => q.code
  | none => ""

/-- The body of the acceptance-evidence loop of calculate_compliance_score
(score_service.py lines 199-211): skip items without a specification code,
otherwise build the SpecificationStatus from membership of the item's
evidence_id in the uploaded ordinals. -/
def spec_status_of (uploaded : List ℕ) (question_code : String)
    (ev : NDIAcceptanceEvidence) : Option SpecificationStatus :=
  match ev.specification_code with
  | none => none
  | some sc => some
      { specification_code := sc
        question_code := question_code
        evidence_id := ev.evidence_id
        status :=
          if uploaded.contains ev.evidence_id then "compliant"
          else "non_compliant"
        has_evidence := uploaded.contains ev.evidence_id }

/-- The per-response loop of ScoreService.calculate_compliance_score
(score_service.py lines 182-211), accumulating SpecificationStatus records
in iteration order. -/
def compliance_loop (db : Db) :
    List AssessmentResponse → Except PyError (List SpecificationStatus)
  | [] => .ok []
  | response :: rest =>
      match response.selected_level with
      | none => compliance_loop db rest
      | some lvl =>
        match get_maturity_level db response.question_id lvl with
        | none => compliance_loop db rest
        | some maturity_level =>
          if maturity_level.acceptance_evidence.isEmpty then compliance_loop db rest
          else
            match uploaded_evidence_ids (responseEvidence db response) with
            | .error e => .error e
            | .ok uploaded =>
              let these := maturity_level.acceptance_evidence.filterMap
                (spec_status_of uploaded (response_question_code db response))
              match compliance_loop db rest with
              | .error e => .error e
              | .ok more => .ok (these ++ more)

/-- Embedding of ScoreService.calculate_compliance_score (score_service.py
lines 166-226). -/
def calculate_compliance_score (db : Db) (assessment_id : ℕ) :
    Except PyError ComplianceScoreResult :=
  let responses := get_responses db assessment_id
  match compliance_loop db responses with
  | .error e => .error e
  | .ok specifications_status =>
      let total := specifications_status.length
      let compliant :=
        (specifications_status.filter (fun s => s.status == "compliant")).length
      .ok { compliant_count := compliant
            partial_count := 0
            non_compliant_count := total - compliant
            total_specifications := total
            compliance_percentage :=
              if 0 < total then roundTo 1 ((compliant : ℚ) / (total : ℚ) * 100) else 0
            is_compliant := compliant == total && decide (0 < total)
            specifications_detail := specifications_status }

/-- Embedding of ScoreService.update_assessment_scores (score_service.py
lines 286-300).  The assessment row is looked up by its primary key
(scalar_one_or_none over a unique id); if present, the three score
attributes are assigned on the row object and flushed, otherwise nothing
happens. -/
def update_assessment_scores (db : Db) (assessment_id : ℕ) : Except PyError Db :=
  let maturity := calculate_maturity_score db assessment_id
  match calculate_compliance_score db assessment_id with
  | .error e => .error e
  | .ok compliance =>
      match db.assessments.find? (fun a => a.id == assessment_id) with
      | some _ =>
          .ok { db with assessments := db.assessments.map (fun a =>
              if a.id == assessment_id then
                { a with
                  maturity_score := some maturity.overall_score
                  compliance_score := some compliance.compliance_percentage
                  current_score := some maturity.overall_score }
              else a) }
      | none => .ok db

/-- Rewrite the inherits_from_level field of every acceptance-evidence item
of the taxonomy according to f, leaving everything else unchanged. -/
def setAcceptanceInherits (f : NDIAcceptanceEvidence → Option ℤ) (db : Db) : Db :=
  { db with maturity_levels := db.maturity_levels.map (fun ml =>
      { ml with acceptance_evidence := ml.acceptance_evidence.map (fun ev =>
          { ev with inherits_from_level := f ev }) }) }

/-!
Specification-side views used to state the maturity-score claims.
-/

/-- The selected levels of the answered responses of an assessment that
belong to one domain. -/
def domainAnsweredLevels (db : Db) (aid : ℕ) (d : NDIDomain) : List ℕ :=
  ((get_responses db aid).filter (fun r =>
    ((domainQuestions db d).map (fun q => q.id)).contains r.question_id &&
      r.selected_level.isSome)).map (fun r => r.selected_level.getD 0)

/-- Arithmetic mean of a list of naturals, as a rational. -/
def natMean (l : List ℕ) : ℚ := (l.sum : ℚ) / (l.length : ℚ)

/-- The unrounded domain averages of exactly those domains that have at
least one answered question in the assessment. -/
def answeredDomainMeans (db : Db) (aid : ℕ) : List ℚ :=
  ((get_domains db).filter
      (fun d => !(domainAnsweredLevels db aid d).isEmpty)).map
    (fun d => natMean (domainAnsweredLevels db aid d))

/-!
Concrete fixtures for witnesses and counterexamples.
-/

/-- Fixture: the Data Governance domain. -/
def domainDG : NDIDomain :=
  { id := 1, code := "DG", name_en := "Data Governance",
    name_ar := "حوكمة البيانات", is_oe_domain := false, sort_order := 1 }

/-- Fixture: a second domain with no answered questions. -/
def domainOE : NDIDomain :=
  { id := 2, code := "OE", name_en := "Open Entity",
    name_ar := "الجهة المفتوحة", is_oe_domain := true, sort_order := 2 }

/-- Fixture: the n-th question of the DG domain. -/
def questionDG (n : ℕ) : NDIQuestion :=
  { id := 10 + n, domain_id := 1, code := "DG.MQ." ++ toString n,
    question_en := "Question", question_ar := "سؤال", sort_order := (n : ℤ) }

/-- Fixture: one question of the OE domain. -/
def questionOE1 : NDIQuestion :=
  { id := 21, domain_id := 2, code := "OE.MQ.1",
    question_en := "Question", question_ar := "سؤال", sort_order := 1 }

/-- Fixture: a specification-tagged acceptance-evidence item of level 2 of
question DG.MQ.1. -/
def aeDG1L2 : NDIAcceptanceEvidence :=
  { id := 41, maturity_level_id := 31, evidence_id := 1,
    text_en := "Approved policy", text_ar := "سياسة معتمدة",
    inherits_from_level := none, specification_code := some "DG.1.1",
    sort_order := 1 }

/-- Fixture: maturity level 2 of question DG.MQ.1 with one
specification-tagged acceptance-evidence item. -/
def mlDG1L2 : NDIMaturityLevel :=
  { id := 31, question_id := 11, level := 2, name_en := "Defined",
    name_ar := "التحديد", acceptance_evidence := [aeDG1L2] }

/-- Fixture: an assessment row with no cached scores. -/
def assessment100 : Assessment :=
  { id := 100, organization_id := 1, assessment_type := "maturity",
    status := "in_progress", name := none, description := none,
    target_level := none, current_score := none, maturity_score := none,
    compliance_score := none, created_by := none, created_at := 0,
    updated_at := 0, completed_at := none }

/-- Fixture: a response of assessment 100 answering question DG.MQ.1 at
level 2. -/
def respDG1L2 : AssessmentResponse :=
  { id := 211, assessment_id := 100, question_id := 11,
    selected_level := some 2, justification := none, notes := none }

/-- Fixture: an uploaded evidence file attached to that response. -/
def evidenceFile : Evidence :=
  { id := 301, response_id := 211, file_name := "policy.pdf",
    file_path := "storage/policy.pdf", file_type := some "pdf",
    file_size := some 1024, analysis_status := some "pending" }

/-- Fixture for C1: assessment 100 has one answered response whose selected
maturity level carries a specification-tagged acceptance-evidence item, and
one uploaded evidence file attached to the response. -/
def dbC1 : Db :=
  { domains := [domainDG], questions := [questionDG 1],
    maturity_levels := [mlDG1L2], assessments := [assessment100],
    responses := [respDG1L2], evidence := [evidenceFile] }

/-- Fixture for C6 and C8: as dbC1 but with no uploaded evidence file, so
the compliance computation succeeds. -/
def dbC6 : Db :=
  { domains := [domainDG], questions := [questionDG 1],
    maturity_levels := [mlDG1L2], assessments := [assessment100],
    responses := [respDG1L2], evidence := [] }

/-- The compliance result of dbC6: one specification-tagged item, no
evidence, hence non-compliant. -/
def resultC6 : ComplianceScoreResult :=
  { compliant_count := 0, partial_count := 0, non_compliant_count := 1,
    total_specifications := 1, compliance_percentage := 0,
    is_compliant := false,
    specifications_detail :=
      [{ specification_code := "DG.1.1", question_code := "DG.MQ.1",
         evidence_id := 1, status := "non_compliant", has_evidence := false }] }

/-- The database dbC6 after update_assessment_scores: only the three score
attributes of assessment 100 changed (domain average 2 → overall 2). -/
def dbC6updated : Db :=
  { dbC6 with assessments := [{ assessment100 with
      maturity_score := some 2, compliance_score := some 0,
      current_score := some 2 }] }

/-- Fixture for the no-op branch of C8: an empty database. -/
def dbEmpty : Db :=
  { domains := [], questions := [], maturity_levels := [],
    assessments := [], responses := [], evidence := [] }

/-- Fixture for C4: domain DG fully answered at level 3, domain OE with a
question but no response at all. -/
def dbC4 : Db :=
  { domains := [domainDG, domainOE],
    questions := [questionDG 1, questionDG 2, questionOE1],
    maturity_levels := [], assessments := [assessment100],
    responses :=
      [{ id := 201, assessment_id := 100, question_id := 11,
         selected_level := some 3, justification := none, notes := none },
       { id := 202, assessment_id := 100, question_id := 12,
         selected_level := some 3, justification := none, notes := none }],
    evidence := [] }

/-- Fixture for C5: one domain with five questions of which exactly two are
answered, at levels 2 and 4. -/
def dbC5 : Db :=
  { domains := [domainDG],
    questions := [questionDG 1, questionDG 2, questionDG 3, questionDG 4, questionDG 5],
    maturity_levels := [], assessments := [assessment100],
    responses :=
      [{ id := 201, assessment_id := 100, question_id := 11,
         selected_level := some 2, justification := none, notes := none },
       { id := 202, assessment_id := 100, question_id := 12,
         selected_level := some 4, justification := none, notes := none }],
    evidence := [] }

/-- C2: the score-to-level bucket function maps every score s in [0, 5] by
the non-uniform half-open threshold table: level 0 for s < 0.25, level 1 for
0.25 <= s < 1.25, level 2 for 1.25 <= s < 2.50, level 3 for 2.50 <= s < 4.00,
level 4 for 4.00 <= s < 4.75 and level 5 for 4.75 <= s <= 5.00; in particular
a score of exactly 4.0 maps to level 4 and a score of exactly 5.0 maps to
level 5. -/
theorem get_level_from_score_table (s : ℚ) (_h0 : 0 ≤ s) (_h5 : s ≤ 5) :
    get_level_from_score s =
      (if s < 0.25 then 0
       else if s < 1.25 then 1
       else if s < 2.50 then 2
       else if s < 4.00 then 3
       else if s < 4.75 then 4
       else 5) ∧
    get_level_from_score 4 = 4 ∧ get_level_from_score 5 = 5 := by
  refine ⟨?_, by with_unfolding_all decide, by with_unfolding_all decide⟩
  simp only [get_level_from_score, LEVEL_THRESHOLDS, level_lookup]
  split_ifs <;> rfl

/-- Witness for C2: the theorem applied at the concrete score 4 (the boundary
the claim singles out) evaluates the bucket to level 4. -/
theorem get_level_from_score_table_witness : get_level_from_score 4 = 4 := by
  have h := (get_level_from_score_table 4 (by norm_num) (by norm_num)).1
  rw [h]; norm_num

/-- C3 counterexample: the claim says a score of exactly 4.75 maps to
level 4; on the code it maps to level 5 (4.75 < 4.75 is false, 4.75 < 5.01
is true), so the claimed equality is false at the concrete input 4.75. -/
theorem get_level_from_score_at_475_ne_4 : ¬ (get_level_from_score 4.75 = 4) := by
  with_unfolding_all decide

/-- C3 (amended): for each boundary value of the threshold table, a score
exactly at the lower bound of a bucket maps to the higher bucket; in
particular a score of exactly 0.25 maps to level 1 (not 0) and a score of
exactly 4.75 maps to level 5 (not 4). -/
theorem boundary_lower_bounds_map_up :
    get_level_from_score 0 = 0 ∧
    get_level_from_score 0.25 = 1 ∧
    get_level_from_score 1.25 = 2 ∧
    get_level_from_score 2.50 = 3 ∧
    get_level_from_score 4.00 = 4 ∧
    get_level_from_score 4.75 = 5 ∧
    get_level_from_score 5.00 = 5 := by
  with_unfolding_all decide

/-- C9: the two score-to-level bucket functions in the source agree: for
every score s, the older assessment-service score_to_level returns the same
level as the newer score-service _get_level_from_score. -/
theorem score_to_level_eq_get_level_from_score (s : ℚ) :
    score_to_level s = get_level_from_score s := by
  simp only [score_to_level, get_level_from_score, LEVEL_THRESHOLDS, level_lookup]
  norm_num

/-- Flooring zero gives zero. -/
theorem ratFloor_zero : ratFloor 0 = 0 := by simp [ratFloor]

/-- Rounding zero gives zero. -/
theorem pyRound_zero : pyRound 0 = 0 := by simp [pyRound, ratFloor_zero]

/-- Rounding zero to any number of decimals gives zero. -/
theorem roundTo_zero (d : ℕ) : roundTo d 0 = 0 := by simp [roundTo, pyRound_zero]

/-- The all_scores contribution of one domain: the unrounded mean of its
answered selected levels, or nothing when no question is answered. -/
theorem maturity_domain_step_snd (db : Db) (aid : ℕ) (d : NDIDomain) :
    (maturity_domain_step db (get_responses db aid) d).2 =
      if (domainAnsweredLevels db aid d).isEmpty then none
      else some (natMean (domainAnsweredLevels db aid d)) := by
  simp only [maturity_domain_step, domainAnsweredLevels, natMean]
  cases h : (get_responses db aid).filter (fun r =>
      ((domainQuestions db d).map (fun q => q.id)).contains r.question_id &&
        r.selected_level.isSome) with
  | nil => simp
  | cons r t => simp [List.length_map, Function.comp_def]

/-- The DomainScore fields of one domain: rounded mean, bucketed level and
answered count over the answered subset; zero-fill when none answered. -/
theorem maturity_domain_step_fst (db : Db) (aid : ℕ) (d : NDIDomain) :
    ((maturity_domain_step db (get_responses db aid) d).1.score,
     (maturity_domain_step db (get_responses db aid) d).1.level,
     (maturity_domain_step db (get_responses db aid) d).1.answered_count) =
      if (domainAnsweredLevels db aid d).isEmpty then ((0 : ℚ), 0, 0)
      else (roundTo 2 (natMean (domainAnsweredLevels db aid d)),
            get_level_from_score (natMean (domainAnsweredLevels db aid d)),
            (domainAnsweredLevels db aid d).length) := by
  simp only [maturity_domain_step, domainAnsweredLevels, natMean]
  cases h : (get_responses db aid).filter (fun r =>
      ((domainQuestions db d).map (fun q => q.id)).contains r.question_id &&
        r.selected_level.isSome) with
  | nil => simp [roundTo_zero]
  | cons r t => simp [List.length_map, Function.comp_def]

/-- The first component of the domain loop is the per-domain DomainScore
list in iteration order. -/
theorem maturity_fold_fst (db : Db) (responses : List AssessmentResponse) :
    ∀ ds : List NDIDomain,
      (maturity_fold db responses ds).1 =
        ds.map (fun d => (maturity_domain_step db responses d).1)
  | [] => rfl
  | d :: rest => by
      simp only [maturity_fold, List.map_cons, maturity_fold_fst db responses rest]

/-- The second component of the domain loop collects exactly the per-domain
averages that exist. -/
theorem maturity_fold_snd (db : Db) (responses : List AssessmentResponse) :
    ∀ ds : List NDIDomain,
      (maturity_fold db responses ds).2 =
        ds.filterMap (fun d => (maturity_domain_step db responses d).2)
  | [] => rfl
  | d :: rest => by
      simp only [maturity_fold, List.filterMap_cons,
        maturity_fold_snd db responses rest]
      cases (maturity_domain_step db responses d).2 <;> rfl

/-- The collected all_scores list is the answered-domain means. -/
theorem maturity_all_scores (db : Db) (aid : ℕ) :
    (maturity_fold db (get_responses db aid) (get_domains db)).2 =
      answeredDomainMeans db aid := by
  rw [maturity_fold_snd, answeredDomainMeans]
  generalize get_domains db = ds
  induction ds with
  | nil => rfl
  | cons d rest ih =>
      rw [List.filterMap_cons, maturity_domain_step_snd, List.filter_cons]
      by_cases h : (domainAnsweredLevels db aid d).isEmpty
      · simp [h, ih]
      · simp [h, ih]

/-- C4: the overall maturity score is the arithmetic mean of the domain
scores of exactly those domains with at least one answered question;
domains with zero answered questions are excluded from the overall average,
not counted as 0.  In the fixture dbC4, domain DG averages 3.0 and domain
OE has no answered question, and the overall score is 3.0, not 1.5. -/
theorem overall_score_excludes_unanswered_domains :
    (∀ (db : Db) (aid : ℕ),
      (calculate_maturity_score db aid).overall_score =
        (if (answeredDomainMeans db aid).isEmpty then 0
         else roundTo 2 ((answeredDomainMeans db aid).sum /
           ((answeredDomainMeans db aid).length : ℚ)))) ∧
    (calculate_maturity_score dbC4 100).overall_score = 3 := by
  constructor
  · intro db aid
    simp only [calculate_maturity_score, maturity_all_scores]
    by_cases h : (answeredDomainMeans db aid).isEmpty
    · simp [h, roundTo_zero]
    · simp [h]
  · with_unfolding_all decide

/-- C5: every domain score is the arithmetic mean of selected_level over
only that domain's answered responses, bucketed by the threshold function,
with the answered count; a domain with zero answered questions is reported
with score 0.0 and level 0.  In the fixture dbC5, answering 2 of 5
questions with levels [2, 4] gives domain score 3.0. -/
theorem domain_scores_mean_of_answered :
    (∀ (db : Db) (aid : ℕ),
      (calculate_maturity_score db aid).domain_scores.map
          (fun e => (e.score, e.level, e.answered_count)) =
        (get_domains db).map (fun d =>
          if (domainAnsweredLevels db aid d).isEmpty then ((0 : ℚ), 0, 0)
          else (roundTo 2 (natMean (domainAnsweredLevels db aid d)),
                get_level_from_score (natMean (domainAnsweredLevels db aid d)),
                (domainAnsweredLevels db aid d).length))) ∧
    (calculate_maturity_score dbC5 100).domain_scores.map (fun e => e.score) = [3] := by
  constructor
  · intro db aid
    simp only [calculate_maturity_score, maturity_fold_fst, List.map_map]
    refine List.map_congr_left fun d _ => ?_
    simpa using maturity_domain_step_fst db aid d
  · with_unfolding_all decide

/-- C10: when the taxonomy contains zero questions, the total_questions
reported in MaturityScoreResult, and the total used in the assessment
report's progress percentage, is the fallback constant 42, not 0; for a
non-empty taxonomy it is the actual question count. -/
theorem total_questions_fallback (db : Db) (aid : ℕ) :
    (db.questions = [] →
      (calculate_maturity_score db aid).total_questions = 42 ∧
      generate_report_total_questions db = 42) ∧
    (db.questions ≠ [] →
      (calculate_maturity_score db aid).total_questions = db.questions.length ∧
      generate_report_total_questions db = db.questions.length) := by
  constructor
  · intro h
    simp [calculate_maturity_score, get_total_questions,
      generate_report_total_questions, h]
  · intro h
    have hlen : db.questions.length ≠ 0 := by
      simpa [List.length_eq_zero] using h
    simp [calculate_maturity_score, get_total_questions,
      generate_report_total_questions, hlen]

/-- Witness for C10: the empty taxonomy reports 42 total questions, while
the three-question fixture reports 3. -/
theorem total_questions_fallback_witness :
    (calculate_maturity_score dbEmpty 100).total_questions = 42 ∧
    (calculate_maturity_score dbC4 100).total_questions = 3 := by
  constructor
  · exact ((total_questions_fallback dbEmpty 100).1 rfl).1
  · exact (((total_questions_fallback dbC4 100).2
      (by with_unfolding_all decide)).1).trans rfl

/-- C1 (code evaluation at the failing input): the Evidence model has no
evidence_id attribute, so on an assessment with one answered response whose
selected maturity level has acceptance evidence and with one uploaded
evidence file, calculate_compliance_score raises AttributeError instead of
computing the claimed membership test. -/
theorem compliance_crashes_on_uploaded_evidence :
    calculate_compliance_score dbC1 100 =
      .error (.attributeError "Evidence object has no attribute evidence_id") := by
  with_unfolding_all decide

/-- A database in which no acceptance-evidence item carries a specification
code produces an empty specification-status list whenever the loop
succeeds. -/
theorem compliance_loop_no_spec (db : Db)
    (hspec : ∀ ml ∈ db.maturity_levels, ∀ ev ∈ ml.acceptance_evidence,
      ev.specification_code = none) :
    ∀ (rs : List AssessmentResponse) (specs : List SpecificationStatus),
      compliance_loop db rs = .ok specs → specs = []
  | [] => by
      intro specs h
      simp only [compliance_loop] at h
      injection h with h
      exact h.symm
  | response :: rest => by
      intro specs h
      simp only [compliance_loop] at h
      split at h
      · exact compliance_loop_no_spec db hspec rest specs h
      · split at h
        · exact compliance_loop_no_spec db hspec rest specs h
        · rename_i ml hml
          split at h
          · exact compliance_loop_no_spec db hspec rest specs h
          · split at h
            · exact Except.noConfusion h
            · split at h
              · exact Except.noConfusion h
              · rename_i more hrec
                injection h with h
                subst h
                rw [List.append_eq_nil]
                refine ⟨List.filterMap_eq_nil_iff.mpr fun ev hev => ?_,
                  compliance_loop_no_spec db hspec rest more hrec⟩
                have hnone := hspec ml (List.mem_of_find?_eq_some hml) ev hev
                simp [spec_status_of, hnone]

/-- C6: in every ComplianceScoreResult, compliance_percentage is
compliant_count / total_specifications * 100 rounded to 1 decimal when
total_specifications > 0 and 0 otherwise, and is_compliant holds iff
compliant_count equals total_specifications and total_specifications > 0;
an assessment with zero specification-tagged acceptance-evidence items
yields total_specifications = 0, compliance_percentage = 0 and
is_compliant = false. -/
theorem compliance_result_fields (db : Db) (aid : ℕ) (r : ComplianceScoreResult)
    (h : calculate_compliance_score db aid = .ok r) :
    (r.compliance_percentage =
      if 0 < r.total_specifications then
        roundTo 1 ((r.compliant_count : ℚ) / (r.total_specifications : ℚ) * 100)
      else 0) ∧
    (r.is_compliant = true ↔
      (r.compliant_count = r.total_specifications ∧ 0 < r.total_specifications)) ∧
    ((∀ ml ∈ db.maturity_levels, ∀ ev ∈ ml.acceptance_evidence,
        ev.specification_code = none) →
      r.total_specifications = 0 ∧ r.compliance_percentage = 0 ∧
        r.is_compliant = false) := by
  simp only [calculate_compliance_score] at h
  cases hl : compliance_loop db (get_responses db aid) with
  | error e => rw [hl] at h; exact Except.noConfusion h
  | ok specs =>
      rw [hl] at h
      injection h with h
      subst h
      refine ⟨rfl, ?_, ?_⟩
      · simp [Bool.and_eq_true, beq_iff_eq, decide_eq_true_eq]
      · intro hspec
        have hnil : specs = [] := compliance_loop_no_spec db hspec _ specs hl
        subst hnil
        exact ⟨rfl, rfl, rfl⟩

/-- Witness for C6: on the fixture with one specification-tagged item and
no uploaded evidence, the computed result satisfies the percentage
equation. -/
theorem compliance_result_fields_witness :
    resultC6.compliance_percentage =
      if 0 < resultC6.total_specifications then
        roundTo 1 ((resultC6.compliant_count : ℚ) / (resultC6.total_specifications : ℚ) * 100)
      else 0 :=
  (compliance_result_fields dbC6 100 resultC6 (by with_unfolding_all decide)).1

/-- Mapping a function over a list preserves emptiness. -/
theorem list_isEmpty_map {α β : Type} (h : α → β) (l : List α) :
    (l.map h).isEmpty = l.isEmpty := by cases l <;> rfl

/-- Looking a maturity level up after rewriting inherits_from_level finds
the rewritten version of the original row. -/
theorem get_maturity_level_setInherits (f : NDIAcceptanceEvidence → Option ℤ)
    (db : Db) (question_id level : ℕ) :
    get_maturity_level (setAcceptanceInherits f db) question_id level =
      (get_maturity_level db question_id level).map (fun ml =>
        { ml with acceptance_evidence := ml.acceptance_evidence.map (fun ev =>
            { ev with inherits_from_level := f ev }) }) := by
  simp only [get_maturity_level, setAcceptanceInherits]
  rw [List.find?_map]
  rfl

/-- Rewriting inherits_from_level does not change the specification status
an acceptance-evidence item produces. -/
theorem filterMap_spec_status_setInherits (uploaded : List ℕ) (qc : String)
    (f : NDIAcceptanceEvidence → Option ℤ) (l : List NDIAcceptanceEvidence) :
    (l.map (fun ev => { ev with inherits_from_level := f ev })).filterMap
        (spec_status_of uploaded qc) =
      l.filterMap (spec_status_of uploaded qc) := by
  rw [List.filterMap_map]
  rfl

/-- The per-response compliance loop is unchanged by any rewriting of
inherits_from_level. -/
theorem compliance_loop_setInherits (f : NDIAcceptanceEvidence → Option ℤ)
    (db : Db) :
    ∀ rs : List AssessmentResponse,
      compliance_loop (setAcceptanceInherits f db) rs = compliance_loop db rs
  | [] => rfl
  | response :: rest => by
      have ih := compliance_loop_setInherits f db rest
      have hre : responseEvidence (setAcceptanceInherits f db) response =
          responseEvidence db response := rfl
      have hqc : response_question_code (setAcceptanceInherits f db) response =
          response_question_code db response := rfl
      simp only [compliance_loop]
      cases hsel : response.selected_level with
      | none => exact ih
      | some lvl =>
          dsimp only
          rw [get_maturity_level_setInherits]
          cases hml : get_maturity_level db response.question_id lvl with
          | none => exact ih
          | some ml =>
              simp only [Option.map_some']
              rw [list_isEmpty_map]
              by_cases he : ml.acceptance_evidence.isEmpty = true
              · simp only [if_pos he]; exact ih
              · simp only [if_neg he]
                rw [hre]
                simp only [hqc, filterMap_spec_status_setInherits, ih]

/-- C7: the compliance engine never resolves inherits_from_level: the
result of calculate_compliance_score is unchanged under any rewriting of
the inherits_from_level field of any acceptance-evidence item; each
specification-tagged item is checked only against the uploaded evidence of
its own response at its currently selected maturity level (visible in
compliance_loop, which reads only responseEvidence of the response and the
maturity level selected by it). -/
theorem compliance_independent_of_inherits (f : NDIAcceptanceEvidence → Option ℤ)
    (db : Db) (aid : ℕ) :
    calculate_compliance_score (setAcceptanceInherits f db) aid =
      calculate_compliance_score db aid := by
  simp only [calculate_compliance_score]
  have hresp : get_responses (setAcceptanceInherits f db) aid =
      get_responses db aid := rfl
  rw [hresp, compliance_loop_setInherits]

/-- C8: update_assessment_scores modifies only the three denormalized score
attributes of the target Assessment row — maturity_score and current_score
set to the overall maturity score, compliance_score set to the compliance
percentage — leaving every other field of that row, every other assessment
row and every other table unchanged; and when no Assessment row with the
given id exists (and, by foreign-key integrity, no response references it),
it performs no write and raises no error. -/
theorem update_assessment_scores_frame (db : Db) (aid : ℕ) :
    (∀ (c : ComplianceScoreResult) (db' : Db),
      calculate_compliance_score db aid = .ok c →
      update_assessment_scores db aid = .ok db' →
      db'.domains = db.domains ∧ db'.questions = db.questions ∧
      db'.maturity_levels = db.maturity_levels ∧
      db'.responses = db.responses ∧ db'.evidence = db.evidence ∧
      db'.assessments = db.assessments.map (fun a =>
        if a.id == aid then
          { a with
            maturity_score := some (calculate_maturity_score db aid).overall_score
            compliance_score := some c.compliance_percentage
            current_score := some (calculate_maturity_score db aid).overall_score }
        else a)) ∧
    (db.assessments.find? (fun a => a.id == aid) = none →
      (∀ r ∈ db.responses, r.assessment_id ≠ aid) →
      update_assessment_scores db aid = .ok db) := by
  constructor
  · intro c db' hc hu
    simp only [update_assessment_scores] at hu
    split at hu
    · rename_i e heq
      rw [hc] at heq
      exact Except.noConfusion heq
    · rename_i compliance heq
      rw [hc] at heq
      injection heq with heq
      subst heq
      split at hu
      · injection hu with hu
        subst hu
        exact ⟨rfl, rfl, rfl, rfl, rfl, rfl⟩
      · rename_i hfind
        injection hu with hu
        subst hu
        refine ⟨rfl, rfl, rfl, rfl, rfl, ?_⟩
        have hmap : db.assessments.map (fun a =>
            if a.id == aid then
              { a with
                maturity_score := some (calculate_maturity_score db aid).overall_score
                compliance_score := some c.compliance_percentage
                current_score := some (calculate_maturity_score db aid).overall_score }
            else a) = db.assessments.map id := by
          refine List.map_congr_left fun a ha => ?_
          have hne := List.find?_eq_none.mp hfind a ha
          simp only [id]
          rw [if_neg hne]
        rw [hmap, List.map_id]
  · intro hfind hresp
    have hr : get_responses db aid = [] := by
      simp only [get_responses]
      refine List.filter_eq_nil_iff.mpr fun r hrm => ?_
      simp [hresp r hrm]
    simp only [update_assessment_scores, calculate_compliance_score, hr,
      compliance_loop]
    rw [hfind]

set_option maxRecDepth 10000 in
/-- Witness for C8: on a concrete database the frame equation of the
updated assessments list holds, and on an empty database the update of a
missing assessment id is a silent no-op. -/
theorem update_assessment_scores_frame_witness :
    dbC6updated.assessments = dbC6.assessments.map (fun a =>
      if a.id == 100 then
        { a with
          maturity_score := some (calculate_maturity_score dbC6 100).overall_score
          compliance_score := some resultC6.compliance_percentage
          current_score := some (calculate_maturity_score dbC6 100).overall_score }
      else a) ∧
    update_assessment_scores dbEmpty 999 = .ok dbEmpty := by
  constructor
  · exact ((update_assessment_scores_frame dbC6 100).1 resultC6 dbC6updated
      (by with_unfolding_all decide) (by with_unfolding_all decide)).2.2.2.2.2
  · exact (update_assessment_scores_frame dbEmpty 999).2 rfl
      (fun r hr => by simp [dbEmpty] at hr)
